import Mathlib

/-!
Shallow embedding of `libmarch/include/march/python/WrapBase.hpp` from the
solvcon repository: the `march::python::WrapBase` helper template for
pybind11 class wrappers.  The host runtime (pybind11 module / `class_`)
is modelled as explicit state: a module is a list of declared classes in
declaration order, and a `class_` handle is the index of the declared
class inside its module.  The function-local static of `commit` is
modelled as an explicit per-WrapperType static cell threaded through the
calls, with C++ semantics: one-time initialization, re-attempted when a
previous attempt exited via an exception.
-/

namespace March

/-- Ownership-holder policy: the `Holder` template parameter of `WrapBase`
(`template< class Wrapper, class Wrapped, class Holder = std::unique_ptr<Wrapped> >`).
`uniquePtr` is exclusive ownership, `sharedPtr` shared ownership. -/
inductive HolderPolicy where
  | uniquePtr
  | sharedPtr
deriving DecidableEq

/-- The default template argument of `Holder` in WrapBase.hpp:
`class Holder = std::unique_ptr<Wrapped>`, i.e. exclusive ownership. -/
def defaultHolder : HolderPolicy := HolderPolicy.uniquePtr

/-- The four member-registration primitives that `WrapBase` forwards to
`m_cls`, generated in the source by `DECL_MARCH_PYBIND_CLASS_METHOD` for
`def`, `def_property`, `def_property_readonly`, `def_property_readonly_static`. -/
inductive MemberKind where
  | def_
  | def_property
  | def_property_readonly
  | def_property_readonly_static
deriving DecidableEq

/-- A declared host class (a `pybind11::class_< wrapped_type, holder_type >`):
its python name, its docstring, its holder policy, and the member table in
the order in which registrations were received.  `A` is the type of the
(variadic, forwarded-verbatim) argument pack of a member registration. -/
structure PyClass (A : Type) where
  name : String
  doc : String
  holder : HolderPolicy
  members : List (MemberKind × A)
deriving DecidableEq

/-- A host module (a `pybind11::module`): the classes declared into it, in
declaration order. -/
structure PyModule (A : Type) where
  classes : List (PyClass A)
deriving DecidableEq

/-- Errors the host module can signal on class declaration. -/
inductive DeclError where
  | duplicateName
deriving DecidableEq

/-- Declaration of a class into a host module: the constructor call
`pybind11::class_< wrapped_type, holder_type >(mod, pyname, clsdoc)`.
The pybind11 runtime is an external collaborator; per the host-module
contract it fails with a host-defined error if the name is already taken,
and otherwise appends a fresh class and yields its handle (its index). -/
def declareClass {A : Type} (m : PyModule A) (pyname clsdoc : String)
    (holder : HolderPolicy) : Except DeclError (PyModule A × Nat) :=
  if m.classes.any (fun c => c.name == pyname) then
    Except.error DeclError.duplicateName
  else
    Except.ok (PyModule.mk (m.classes ++ [PyClass.mk pyname clsdoc holder []]),
               m.classes.length)

/-- A `WrapBase` instance.  Its only data member is
`pybind11::class_< wrapped_type, holder_type > m_cls;` — here the handle
(index) of the declared class inside the host module. -/
structure WrapBase (A : Type) where
  m_cls : Nat
deriving DecidableEq

/-- The protected constructor
`WrapBase(pybind11::module & mod, const char * pyname, const char * clsdoc)
  : m_cls(pybind11::class_< wrapped_type, holder_type >(mod, pyname, clsdoc)) {}`:
declares the class into the module and stores the resulting handle in
`m_cls`; a declaration failure propagates out of the constructor. -/
def WrapBase.construct {A : Type} (m : PyModule A) (pyname clsdoc : String)
    (holder : HolderPolicy) : Except DeclError (PyModule A × WrapBase A) :=
  match declareClass m pyname clsdoc holder with
  | Except.error e => Except.error e
  | Except.ok (m2, h) => Except.ok (m2, WrapBase.mk h)

/-- The state of the function-local static `derived` inside `commit`, per
WrapperType: either not yet (successfully) initialized, or holding the one
constructed instance. -/
inductive StaticState (A : Type) where
  | Unconstructed
  | Registered (w : WrapBase A)
deriving DecidableEq

/-- `static wrapper_type & commit(pybind11::module & mod, const char * pyname, const char * clsdoc)
\x7b static wrapper_type derived(mod, pyname, clsdoc); return derived; \x7d`.
The static cell is threaded explicitly.  If the cell is already populated
the arguments are ignored and the stored instance is returned unchanged;
otherwise the protected constructor runs: on failure the exception
propagates and the cell stays unconstructed (C++ retries a failed
function-local static initialization on the next call); on success the
new instance is stored and returned. -/
def WrapBase.commit {A : Type} (st : StaticState A) (m : PyModule A)
    (pyname clsdoc : String) (holder : HolderPolicy) :
    StaticState A × PyModule A × Except DeclError (WrapBase A) :=
  match st with
  | StaticState.Registered w => (st, m, Except.ok w)
  | StaticState.Unconstructed =>
    match WrapBase.construct m pyname clsdoc holder with
    | Except.error e => (StaticState.Unconstructed, m, Except.error e)
    | Except.ok (m2, w) => (StaticState.Registered w, m2, Except.ok w)

/-- Replace the element at an index of a list by applying a function,
leaving every other position unchanged. -/
def updateNth {α : Type} : List α → Nat → (α → α) → List α
  | [], _, _ => []
  | a :: l, 0, f => f a :: l
  | a :: l, n + 1, f => a :: updateNth l n f

/-- The host class handle's member-registration primitive
(`pybind11::class_::def` / `def_property` / `def_property_readonly` /
`def_property_readonly_static`): appends one entry to the class's member
table, verbatim, with no deduplication. -/
def PyClass.addMember {A : Type} (c : PyClass A) (k : MemberKind) (args : A) :
    PyClass A :=
  PyClass.mk c.name c.doc c.holder (c.members ++ [(k, args)])

/-- The body generated by `DECL_MARCH_PYBIND_CLASS_METHOD(METHOD)`:
`m_cls.METHOD(std::forward<Args>(args)...); return *static_cast<wrapper_type*>(this);`
— forward the call to the stored handle (whose own return value is
discarded) and return the receiver itself. -/
def WrapBase.defMember {A : Type} (w : WrapBase A) (m : PyModule A)
    (k : MemberKind) (args : A) : WrapBase A × PyModule A :=
  (w, PyModule.mk (updateNth m.classes w.m_cls (fun c => c.addMember k args)))

/-- `DECL_MARCH_PYBIND_CLASS_METHOD(def)`. -/
def WrapBase.def_ {A : Type} (w : WrapBase A) (m : PyModule A) (args : A) :
    WrapBase A × PyModule A :=
  w.defMember m MemberKind.def_ args

/-- `DECL_MARCH_PYBIND_CLASS_METHOD(def_property)`. -/
def WrapBase.def_property {A : Type} (w : WrapBase A) (m : PyModule A) (args : A) :
    WrapBase A × PyModule A :=
  w.defMember m MemberKind.def_property args

/-- `DECL_MARCH_PYBIND_CLASS_METHOD(def_property_readonly)`. -/
def WrapBase.def_property_readonly {A : Type} (w : WrapBase A) (m : PyModule A)
    (args : A) : WrapBase A × PyModule A :=
  w.defMember m MemberKind.def_property_readonly args

/-- `DECL_MARCH_PYBIND_CLASS_METHOD(def_property_readonly_static)`. -/
def WrapBase.def_property_readonly_static {A : Type} (w : WrapBase A)
    (m : PyModule A) (args : A) : WrapBase A × PyModule A :=
  w.defMember m MemberKind.def_property_readonly_static args

/-- Whether a special member function is `= delete` or `= default` in the
source. -/
inductive MemberStatus where
  | deleted
  | defaulted
deriving DecidableEq

/-- The five special member functions of a C++ class. -/
structure SpecialMembers where
  default_ctor : MemberStatus
  copy_ctor : MemberStatus
  move_ctor : MemberStatus
  copy_assign : MemberStatus
  move_assign : MemberStatus
deriving DecidableEq

/-- The special-member declarations of `WrapBase` (WrapBase.hpp lines 42-46):
`WrapBase() = delete; WrapBase(WrapBase const &) = default;
WrapBase(WrapBase &&) = delete; WrapBase & operator=(WrapBase const &) = default;
WrapBase & operator=(WrapBase &&) = delete;`. -/
def WrapBase.specialMembers : SpecialMembers :=
  SpecialMembers.mk MemberStatus.deleted MemberStatus.defaulted
    MemberStatus.deleted MemberStatus.defaulted MemberStatus.deleted

/-- C++ access levels occurring in `WrapBase`. -/
inductive Access where
  | public
  | protected_
deriving DecidableEq

/-- The member declarations of the `WrapBase` class. -/
inductive MemberDecl where
  | commit
  | default_ctor
  | copy_ctor
  | move_ctor
  | copy_assign
  | move_assign
  | param_ctor
  | def_
  | def_property
  | def_property_readonly
  | def_property_readonly_static
  | m_cls
deriving DecidableEq, Fintype

/-- The access level of each member of `WrapBase` as declared in the source:
everything up to the `protected:` label is public; the
`(module, pyname, clsdoc)` constructor and `m_cls` follow `protected:`. -/
def memberAccess : MemberDecl → Access
  | MemberDecl.param_ctor => Access.protected_
  | MemberDecl.m_cls => Access.protected_
  | _ => Access.public

/-- Which members of `WrapBase` are `= delete` in the source. -/
def memberDeleted : MemberDecl → Bool
  | MemberDecl.default_ctor => true
  | MemberDecl.move_ctor => true
  | MemberDecl.move_assign => true
  | _ => false

/-- Which member declarations can hand a `WrapBase` instance to code that
does not already hold one: the constructors, and the static member
function `commit` (which returns `wrapper_type &`).  The copy assignment
operator and the forwarding methods only operate on an instance the
caller already has. -/
def producesInstance : MemberDecl → Bool
  | MemberDecl.commit => true
  | MemberDecl.default_ctor => true
  | MemberDecl.copy_ctor => true
  | MemberDecl.move_ctor => true
  | MemberDecl.param_ctor => true
  | _ => false

/-- The operations the class offers once the program is running: a
`commit` call, a member registration through the singleton, and a copy
(`WrapBase(WrapBase const &) = default`, which copies `m_cls`). -/
inductive Op (A : Type) where
  | commit (pyname clsdoc : String) (holder : HolderPolicy)
  | member (k : MemberKind) (args : A)
  | copy
deriving DecidableEq

/-- The whole-system state for one WrapperType: the static cell of
`commit`, the host module, the number of host class handles created so
far for this WrapperType, and the copies made so far. -/
structure Sys (A : Type) where
  static : StaticState A
  hostMod : PyModule A
  handles : Nat
  copies : List (WrapBase A)
deriving DecidableEq

/-- The copy constructor `WrapBase(WrapBase const &) = default`: a
memberwise copy, i.e. it copies `m_cls`. -/
def WrapBase.copy {A : Type} (w : WrapBase A) : WrapBase A :=
  WrapBase.mk w.m_cls

/-- One step of the system: run the requested operation against the
current state.  A member registration or a copy before the singleton
exists is a no-op at this level (those operations require an instance,
which only `commit` can hand out). -/
def sysStep {A : Type} (s : Sys A) : Op A → Sys A
  | Op.commit pyname clsdoc holder =>
    let r := WrapBase.commit s.static s.hostMod pyname clsdoc holder
    Sys.mk r.1 r.2.1
      (match s.static, r.1 with
       | StaticState.Unconstructed, StaticState.Registered _ => s.handles + 1
       | _, _ => s.handles)
      s.copies
  | Op.member k args =>
    match s.static with
    | StaticState.Registered w => Sys.mk s.static (w.defMember s.hostMod k args).2 s.handles s.copies
    | StaticState.Unconstructed => s
  | Op.copy =>
    match s.static with
    | StaticState.Registered w => Sys.mk s.static s.hostMod s.handles (w.copy :: s.copies)
    | StaticState.Unconstructed => s

/-- The singleton invariant: the number of host class handles created for
this WrapperType matches the static cell (one exactly when the singleton
exists, zero before), and every copy refers to the same declared class as
the singleton. -/
def invHolds {A : Type} [DecidableEq A] (s : Sys A) : Bool :=
  match s.static with
  | StaticState.Registered w =>
    s.handles == 1 && s.copies.all (fun c => c.m_cls == w.m_cls)
  | StaticState.Unconstructed => s.handles == 0 && s.copies.isEmpty

/-! Helper lemmas. -/

theorem updateNth_length {α : Type} (l : List α) (i : Nat) (f : α → α) :
    (updateNth l i f).length = l.length := by
  induction l generalizing i with
  | nil => rfl
  | cons a t ih =>
    cases i with
    | zero => rfl
    | succ n => simpa [updateNth] using ih n

theorem updateNth_getElem_self {α : Type} (l : List α) (i : Nat) (f : α → α)
    (a : α) (h : l[i]? = some a) : (updateNth l i f)[i]? = some (f a) := by
  induction l generalizing i with
  | nil => simp at h
  | cons b t ih =>
    cases i with
    | zero =>
      simp only [List.getElem?_cons_zero, Option.some.injEq] at h
      subst h
      simp [updateNth]
    | succ n =>
      simp only [List.getElem?_cons_succ] at h
      simpa [updateNth] using ih n h

theorem updateNth_getElem_ne {α : Type} (l : List α) (i j : Nat) (f : α → α)
    (h : j ≠ i) : (updateNth l i f)[j]? = l[j]? := by
  induction l generalizing i j with
  | nil => rfl
  | cons b t ih =>
    cases i with
    | zero =>
      cases j with
      | zero => exact absurd rfl h
      | succ n => simp [updateNth]
    | succ n =>
      cases j with
      | zero => simp [updateNth]
      | succ k =>
        simpa [updateNth] using ih n k (fun hk => h (by rw [hk]))

theorem foldl_defMember_fst {A : Type} (w : WrapBase A) (m : PyModule A)
    (chain : List (MemberKind × A)) :
    (chain.foldl (fun p e => p.1.defMember p.2 e.1 e.2) (w, m)).1 = w := by
  induction chain generalizing m with
  | nil => rfl
  | cons e t ih => exact ih _

/-! Claim theorems. -/

/-- C4: every member-registration method (`def`, `def_property`,
`def_property_readonly`, `def_property_readonly_static`) returns a
reference identical to the receiver itself (`return *static_cast<wrapper_type*>(this)`),
so a chain of any length keeps operating on the one shared instance. -/
theorem member_methods_return_receiver {A : Type} (w : WrapBase A)
    (m : PyModule A) (k : MemberKind) (args : A)
    (chain : List (MemberKind × A)) :
    (w.defMember m k args).1 = w
    ∧ (w.def_ m args).1 = w
    ∧ (w.def_property m args).1 = w
    ∧ (w.def_property_readonly m args).1 = w
    ∧ (w.def_property_readonly_static m args).1 = w
    ∧ (chain.foldl (fun p e => p.1.defMember p.2 e.1 e.2) (w, m)).1 = w :=
  ⟨rfl, rfl, rfl, rfl, rfl, foldl_defMember_fst w m chain⟩

/-- C6: default construction, move construction, and move assignment of a
WrapperType are deleted (rejected at compile time), while copy
construction is defaulted, i.e. remains permitted. -/
theorem special_member_policy :
    WrapBase.specialMembers.default_ctor = MemberStatus.deleted
    ∧ WrapBase.specialMembers.move_ctor = MemberStatus.deleted
    ∧ WrapBase.specialMembers.move_assign = MemberStatus.deleted
    ∧ WrapBase.specialMembers.copy_ctor = MemberStatus.defaulted :=
  ⟨rfl, rfl, rfl, rfl⟩

/-- C8: the `(module, pyname, clsdoc)` constructor is protected while
`commit` is public and not deleted, and among all member declarations the
only non-deleted, publicly accessible ones that can hand out a WrapperType
instance are `commit` and the copy constructor: the singleton construction
path cannot be bypassed at the public interface. -/
theorem protected_ctor_guards_construction :
    memberAccess MemberDecl.param_ctor = Access.protected_
    ∧ memberAccess MemberDecl.commit = Access.public
    ∧ memberDeleted MemberDecl.commit = false
    ∧ ∀ m : MemberDecl, producesInstance m = true → memberDeleted m = false →
        memberAccess m = Access.public →
        (m = MemberDecl.commit ∨ m = MemberDecl.copy_ctor) := by
  refine ⟨rfl, rfl, rfl, ?_⟩
  decide

/-- C2: on the first `commit` call for a WrapperType (static cell
unconstructed), when the host module accepts the declaration, the
singleton is constructed by declaring a class with the supplied name and
docstring and with the holder policy, the resulting handle is stored in
`m_cls` of the returned instance, and the static cell now holds that
instance; the `Holder` template parameter defaults to
`std::unique_ptr<Wrapped>`, i.e. exclusive ownership. -/
theorem commit_first_call_constructs {A : Type} (m : PyModule A)
    (pyname clsdoc : String) (holder : HolderPolicy)
    (hfree : m.classes.any (fun c => c.name == pyname) = false) :
    WrapBase.commit StaticState.Unconstructed m pyname clsdoc holder =
      (StaticState.Registered (WrapBase.mk m.classes.length),
       PyModule.mk (m.classes ++ [PyClass.mk pyname clsdoc holder []]),
       Except.ok (WrapBase.mk m.classes.length))
    ∧ defaultHolder = HolderPolicy.uniquePtr := by
  refine ⟨?_, rfl⟩
  simp [WrapBase.commit, WrapBase.construct, declareClass, hfree]

/-- Witness for C2: declaring "Vector" with docstring "doc1" into an
empty module constructs the singleton with handle 0 and records the
class. -/
theorem commit_first_call_constructs_witness :
    WrapBase.commit StaticState.Unconstructed
        (PyModule.mk ([] : List (PyClass Nat))) "Vector" "doc1"
        HolderPolicy.uniquePtr =
      (StaticState.Registered (WrapBase.mk ([] : List (PyClass Nat)).length),
       PyModule.mk (([] : List (PyClass Nat))
         ++ [PyClass.mk "Vector" "doc1" HolderPolicy.uniquePtr []]),
       Except.ok (WrapBase.mk ([] : List (PyClass Nat)).length))
    ∧ defaultHolder = HolderPolicy.uniquePtr :=
  commit_first_call_constructs (PyModule.mk []) "Vector" "doc1"
    HolderPolicy.uniquePtr rfl

/-- C1: once the first `commit` call for a WrapperType has succeeded,
every later `commit` call returns the identical stored instance and
leaves the host module untouched, whatever module/name/doc arguments it
passes (they are silently ignored); and the one class declaration that
did reach the module carries the first call's name and docstring, so the
second call's docstring never reaches the host module. -/
theorem commit_after_first_ignores_args {A : Type}
    {st1 : StaticState A} {m1 : PyModule A} {w : WrapBase A}
    (m : PyModule A) (n1 d1 : String) (h1 : HolderPolicy)
    (n2 d2 : String) (h2 : HolderPolicy)
    (hfirst : WrapBase.commit StaticState.Unconstructed m n1 d1 h1
      = (st1, m1, Except.ok w)) :
    WrapBase.commit st1 m1 n2 d2 h2 = (st1, m1, Except.ok w)
    ∧ m1.classes = m.classes ++ [PyClass.mk n1 d1 h1 []] := by
  unfold WrapBase.commit WrapBase.construct declareClass at hfirst
  by_cases hdup : m.classes.any (fun c => c.name == n1) = true
  · simp [hdup] at hfirst
  · simp only [Bool.not_eq_true] at hdup
    simp [hdup] at hfirst
    obtain ⟨hst, hm, hw⟩ := hfirst
    subst hst
    subst hm
    subst hw
    exact ⟨rfl, rfl⟩

/-- Witness for C1: after `commit(m, "Vector", "doc1")` on an empty
module, a second call passing "doc2" (and a different holder) returns the
identical instance and leaves the module unchanged — "doc2" never reaches
the host module, whose one class carries "doc1". -/
theorem commit_after_first_ignores_args_witness :
    WrapBase.commit (StaticState.Registered (WrapBase.mk 0))
        (PyModule.mk [PyClass.mk "Vector" "doc1" HolderPolicy.uniquePtr
          ([] : List (MemberKind × Nat))]) "Vector" "doc2"
        HolderPolicy.sharedPtr =
      (StaticState.Registered (WrapBase.mk 0),
       PyModule.mk [PyClass.mk "Vector" "doc1" HolderPolicy.uniquePtr
         ([] : List (MemberKind × Nat))],
       Except.ok (WrapBase.mk 0))
    ∧ (PyModule.mk [PyClass.mk "Vector" "doc1" HolderPolicy.uniquePtr
        ([] : List (MemberKind × Nat))]).classes
      = (PyModule.mk ([] : List (PyClass Nat))).classes
        ++ [PyClass.mk "Vector" "doc1" HolderPolicy.uniquePtr []] :=
  commit_after_first_ignores_args (PyModule.mk []) "Vector" "doc1"
    HolderPolicy.uniquePtr "Vector" "doc2" HolderPolicy.sharedPtr rfl

/-- C3: when the host-module declaration fails on a first `commit`
attempt, the error propagates to that caller, the static cell stays
unconstructed (the singleton is never created) and the module is
untouched; a subsequent `commit` call behaves exactly like a fresh first
call, i.e. it attempts construction again — no retry happens inside
`commit` itself and no poisoned instance is returned. -/
theorem commit_failure_leaves_unconstructed {A : Type} (m : PyModule A)
    (pyname clsdoc : String) (holder : HolderPolicy) (e : DeclError)
    (hfail : declareClass m pyname clsdoc holder = Except.error e) :
    WrapBase.commit StaticState.Unconstructed m pyname clsdoc holder
      = (StaticState.Unconstructed, m, Except.error e)
    ∧ ∀ (m2 : PyModule A) (n2 d2 : String) (h2 : HolderPolicy),
        WrapBase.commit
          (WrapBase.commit StaticState.Unconstructed m pyname clsdoc holder).1
          m2 n2 d2 h2
        = WrapBase.commit StaticState.Unconstructed m2 n2 d2 h2 := by
  have hc : WrapBase.construct m pyname clsdoc holder = Except.error e := by
    unfold WrapBase.construct
    rw [hfail]
  have h1 : WrapBase.commit StaticState.Unconstructed m pyname clsdoc holder
      = (StaticState.Unconstructed, m, Except.error e) := by
    unfold WrapBase.commit
    rw [hc]
  exact ⟨h1, fun m2 n2 d2 h2 => by rw [h1]⟩

/-- Witness for C3: declaring "Vector" into a module that already has a
class named "Vector" fails; the cell stays unconstructed and a later call
for a fresh module behaves like a first call. -/
theorem commit_failure_leaves_unconstructed_witness :
    WrapBase.commit StaticState.Unconstructed
        (PyModule.mk [PyClass.mk "Vector" "d0" HolderPolicy.uniquePtr
          ([] : List (MemberKind × Nat))]) "Vector" "doc1"
        HolderPolicy.uniquePtr =
      (StaticState.Unconstructed,
       PyModule.mk [PyClass.mk "Vector" "d0" HolderPolicy.uniquePtr
         ([] : List (MemberKind × Nat))],
       Except.error DeclError.duplicateName)
    ∧ WrapBase.commit
        (WrapBase.commit StaticState.Unconstructed
          (PyModule.mk [PyClass.mk "Vector" "d0" HolderPolicy.uniquePtr
            ([] : List (MemberKind × Nat))]) "Vector" "doc1"
          HolderPolicy.uniquePtr).1
        (PyModule.mk ([] : List (PyClass Nat))) "Vec2" "doc2"
        HolderPolicy.uniquePtr
      = WrapBase.commit StaticState.Unconstructed
          (PyModule.mk ([] : List (PyClass Nat))) "Vec2" "doc2"
          HolderPolicy.uniquePtr :=
  ⟨(commit_failure_leaves_unconstructed
      (PyModule.mk [PyClass.mk "Vector" "d0" HolderPolicy.uniquePtr []])
      "Vector" "doc1" HolderPolicy.uniquePtr DeclError.duplicateName
      (by rfl)).1,
   (commit_failure_leaves_unconstructed
      (PyModule.mk [PyClass.mk "Vector" "d0" HolderPolicy.uniquePtr []])
      "Vector" "doc1" HolderPolicy.uniquePtr DeclError.duplicateName
      (by rfl)).2
     (PyModule.mk []) "Vec2" "doc2" HolderPolicy.uniquePtr⟩

/-- C5: member-registration calls are forwarded verbatim to the stored
class handle in the order received; each call appends exactly one entry
to the class's member table (even for duplicate names/arguments — no
deduplication, no detection), three successive registrations arrive in
exactly that order, and no other class of the module is touched. -/
theorem member_registration_in_order {A : Type} (w : WrapBase A)
    (m : PyModule A) (c : PyClass A)
    (k1 k2 k3 : MemberKind) (a1 a2 a3 : A)
    (hc : m.classes[w.m_cls]? = some c) :
    (∀ (k : MemberKind) (a : A),
      ((w.defMember m k a).2).classes[w.m_cls]?
        = some (PyClass.mk c.name c.doc c.holder (c.members ++ [(k, a)])))
    ∧ ((w.defMember ((w.defMember ((w.defMember m k1 a1).2) k2 a2).2)
          k3 a3).2).classes[w.m_cls]?
        = some (PyClass.mk c.name c.doc c.holder
            (c.members ++ [(k1, a1), (k2, a2), (k3, a3)]))
    ∧ ∀ (k : MemberKind) (a : A) (j : Nat), j ≠ w.m_cls →
        ((w.defMember m k a).2).classes[j]? = m.classes[j]? := by
  have hone : ∀ (m0 : PyModule A) (c0 : PyClass A),
      m0.classes[w.m_cls]? = some c0 →
      ∀ (k : MemberKind) (a : A),
        ((w.defMember m0 k a).2).classes[w.m_cls]? = some (c0.addMember k a) :=
    fun m0 c0 h0 k a => updateNth_getElem_self m0.classes w.m_cls _ c0 h0
  refine ⟨fun k a => hone m c hc k a, ?_, ?_⟩
  · have h1 := hone m c hc k1 a1
    have h2 := hone _ _ h1 k2 a2
    have h3 := hone _ _ h2 k3 a3
    simpa [PyClass.addMember, List.append_assoc] using h3
  · intro k a j hj
    exact updateNth_getElem_ne m.classes w.m_cls j _ hj

/-- Witness for C5: three registrations on the single class of a
one-class module land in the member table in call order. -/
theorem member_registration_in_order_witness :
    (((WrapBase.mk 0 : WrapBase Nat).defMember
        (((WrapBase.mk 0 : WrapBase Nat).defMember
          (((WrapBase.mk 0 : WrapBase Nat).defMember
            (PyModule.mk [PyClass.mk "Vector" "doc1" HolderPolicy.uniquePtr
              ([] : List (MemberKind × Nat))])
            MemberKind.def_ 10).2)
          MemberKind.def_property 20).2)
        MemberKind.def_ 30).2).classes[(WrapBase.mk 0 : WrapBase Nat).m_cls]?
      = some (PyClass.mk "Vector" "doc1" HolderPolicy.uniquePtr
          ([] ++ [(MemberKind.def_, 10), (MemberKind.def_property, 20),
            (MemberKind.def_, 30)])) :=
  (member_registration_in_order (WrapBase.mk 0)
    (PyModule.mk [PyClass.mk "Vector" "doc1" HolderPolicy.uniquePtr []])
    (PyClass.mk "Vector" "doc1" HolderPolicy.uniquePtr [])
    MemberKind.def_ MemberKind.def_property MemberKind.def_ 10 20 30 rfl).2.1

/-- C9: a member-registration call leaves the wrapper's own stored state
(`m_cls`) unchanged — the receiver is returned as-is; its only effect on
the world is to apply the corresponding declaration primitive to the
class `m_cls` refers to (whose own return value is discarded): that class
gains exactly the registered entry, every other class of the module is
unchanged, and no class is added or removed. -/
theorem member_registration_frame {A : Type} (w : WrapBase A)
    (m : PyModule A) (k : MemberKind) (args : A) (c : PyClass A)
    (hc : m.classes[w.m_cls]? = some c) :
    (w.defMember m k args).1 = w
    ∧ ((w.defMember m k args).2).classes[w.m_cls]? = some (c.addMember k args)
    ∧ (∀ j, j ≠ w.m_cls → ((w.defMember m k args).2).classes[j]? = m.classes[j]?)
    ∧ ((w.defMember m k args).2).classes.length = m.classes.length :=
  ⟨rfl,
   updateNth_getElem_self m.classes w.m_cls _ c hc,
   fun j hj => updateNth_getElem_ne m.classes w.m_cls j _ hj,
   updateNth_length m.classes w.m_cls _⟩

/-- Witness for C9: registering one member on the single class of a
one-class module mutates exactly that class's member table. -/
theorem member_registration_frame_witness :
    ((WrapBase.mk 0 : WrapBase Nat).defMember
        (PyModule.mk [PyClass.mk "Vector" "doc1" HolderPolicy.uniquePtr
          ([] : List (MemberKind × Nat))])
        MemberKind.def_ 10).2.classes[(WrapBase.mk 0 : WrapBase Nat).m_cls]?
      = some ((PyClass.mk "Vector" "doc1" HolderPolicy.uniquePtr
          ([] : List (MemberKind × Nat))).addMember MemberKind.def_ 10) :=
  (member_registration_frame (WrapBase.mk 0)
    (PyModule.mk [PyClass.mk "Vector" "doc1" HolderPolicy.uniquePtr []])
    MemberKind.def_ 10
    (PyClass.mk "Vector" "doc1" HolderPolicy.uniquePtr []) rfl).2.1

theorem invHolds_sysStep {A : Type} [DecidableEq A] (s : Sys A) (op : Op A)
    (hinv : invHolds s = true) : invHolds (sysStep s op) = true := by
  obtain ⟨st, m, n, cs⟩ := s
  cases op with
  | commit pyname clsdoc holder =>
    cases st with
    | Registered w =>
      simpa [sysStep, WrapBase.commit, invHolds] using hinv
    | Unconstructed =>
      simp only [invHolds, Bool.and_eq_true, beq_iff_eq, List.isEmpty_iff]
        at hinv
      obtain ⟨hn, hcs⟩ := hinv
      subst hn
      subst hcs
      cases hcon : WrapBase.construct m pyname clsdoc holder with
      | error e => simp [sysStep, WrapBase.commit, hcon, invHolds]
      | ok r => simp [sysStep, WrapBase.commit, hcon, invHolds]
  | member k args =>
    cases st with
    | Registered w => simpa [sysStep, invHolds] using hinv
    | Unconstructed => simpa [sysStep] using hinv
  | copy =>
    cases st with
    | Registered w =>
      simp only [invHolds, Bool.and_eq_true, beq_iff_eq] at hinv
      obtain ⟨hn, hcs⟩ := hinv
      simp [sysStep, invHolds, WrapBase.copy, hn, hcs]
    | Unconstructed => simpa [sysStep] using hinv

theorem invHolds_run {A : Type} [DecidableEq A] (ops : List (Op A))
    (s : Sys A) (hinv : invHolds s = true) :
    invHolds (ops.foldl sysStep s) = true := by
  induction ops generalizing s with
  | nil => exact hinv
  | cons op t ih => exact ih _ (invHolds_sysStep s op hinv)

/-- C10: a copy of a WrapperType copies the stored class handle `m_cls`
(so the copy refers to the same already-declared host class), never
triggers a new class declaration, and the invariant "at most one host
class handle is ever created per WrapperType, and every copy shares the
singleton's handle" is preserved by every operation of the class — in
particular it holds after any sequence of operations started from an
unconstructed state. -/
theorem copy_shares_handle_and_invariant {A : Type} [DecidableEq A]
    (s : Sys A) (op : Op A) (hinv : invHolds s = true) :
    invHolds (sysStep s op) = true
    ∧ (sysStep s op).handles ≤ 1
    ∧ (sysStep s Op.copy).handles = s.handles
    ∧ (sysStep s Op.copy).hostMod = s.hostMod
    ∧ (∀ w : WrapBase A, s.static = StaticState.Registered w →
        sysStep s Op.copy
          = Sys.mk s.static s.hostMod s.handles (WrapBase.mk w.m_cls :: s.copies))
    ∧ (∀ (ops : List (Op A)) (m0 : PyModule A),
        invHolds (ops.foldl sysStep
          (Sys.mk StaticState.Unconstructed m0 0 [])) = true) := by
  refine ⟨invHolds_sysStep s op hinv, ?_, ?_, ?_, ?_, ?_⟩
  · have h := invHolds_sysStep s op hinv
    unfold invHolds at h
    cases hst : (sysStep s op).static with
    | Registered w =>
      rw [hst] at h
      simp only [Bool.and_eq_true, beq_iff_eq] at h
      omega
    | Unconstructed =>
      rw [hst] at h
      simp only [Bool.and_eq_true, beq_iff_eq] at h
      omega
  · cases hst : s.static with
    | Registered w => simp [sysStep, hst]
    | Unconstructed => simp [sysStep, hst]
  · cases hst : s.static with
    | Registered w => simp [sysStep, hst]
    | Unconstructed => simp [sysStep, hst]
  · intro w hst
    simp [sysStep, hst, WrapBase.copy]
  · intro ops m0
    exact invHolds_run ops _ (by simp [invHolds])

/-- Witness for C10: with the singleton registered and one prior copy, a
copy operation preserves the invariant. -/
theorem copy_shares_handle_and_invariant_witness :
    invHolds (sysStep
      (Sys.mk (StaticState.Registered (WrapBase.mk 0))
        (PyModule.mk [PyClass.mk "Vector" "doc1" HolderPolicy.uniquePtr
          ([] : List (MemberKind × Nat))])
        1 [WrapBase.mk 0])
      Op.copy) = true :=
  (copy_shares_handle_and_invariant
    (Sys.mk (StaticState.Registered (WrapBase.mk 0))
      (PyModule.mk [PyClass.mk "Vector" "doc1" HolderPolicy.uniquePtr
        ([] : List (MemberKind × Nat))])
      1 [WrapBase.mk 0])
    Op.copy (by rfl)).1

/-- Witness for C8: `commit` itself is a public, non-deleted
instance-producing member, and it is one of the two permitted ones. -/
theorem protected_ctor_guards_construction_witness :
    MemberDecl.commit = MemberDecl.commit ∨ MemberDecl.commit = MemberDecl.copy_ctor :=
  protected_ctor_guards_construction.2.2.2 MemberDecl.commit rfl rfl rfl

end March
